import Mathlib

/-!
Verification of the tushare download pipeline
(`utils/tushare_download/downloaders/base_downloader.py` and
`utils/tushare_download/downloaders/trade_cal.py`).

The Python code is shallowly embedded: the retry loop of
`BaseDownload.retry_call` becomes an explicit state-passing function that
records a trace of its observable events (provider invocations and sleeps),
`BaseDownload.to_db` becomes a function over an abstract store state, and
`BaseDownload.get_start_date` is parameterised by the store's
table-existence and max-column queries.
-/

/-- Module-level constant `RETRY = 5` of `base_downloader.py`. -/
def RETRY : Nat := 5

/-- Module-level constant `WAIT = 1` of `base_downloader.py` (unused by the code). -/
def WAIT : Nat := 1

/-- Module-level constant `MAX_PER_SECOND = 200` of `base_downloader.py`. -/
def MAX_PER_SECOND : Nat := 200

/-- Module-level constant `CALL_INTERVAL = 60 / MAX_PER_SECOND` of
`base_downloader.py`.  Python computes this with float division; the value
60/200 = 0.3 is modelled exactly as a rational. -/
def CALL_INTERVAL : ℚ := 60 / (MAX_PER_SECOND : ℚ)

/-- Module-level constant `EALIEST_DATE = '20080101'` of `base_downloader.py`
(the source's own spelling). -/
def EALIEST_DATE : String := "20080101"

/-- The message of the `RuntimeError` raised by `BaseDownload.retry_call`
when the retry budget is exhausted. -/
def RUNTIME_ERROR_MSG : String := "尝试调用Tushare API多次失败......"

/-- `self.retry_count = 0`, set once in `BaseDownload.__init__`. -/
def init_retry_count : Nat := 0

/-- Observable events of one `retry_call` run: an invocation of the provider
callable `func(**kwargs)`, or a `time.sleep` of the given number of seconds. -/
inductive Ev where
  | callApi : Ev
  | sleepSec : Nat → Ev
deriving DecidableEq, Repr

/-- Total seconds slept in a trace. -/
def totalSleep : List Ev → Nat
  | [] => 0
  | Ev.callApi :: t => totalSleep t
  | Ev.sleepSec n :: t => n + totalSleep t

/-- Number of provider invocations in a trace. -/
def callCount : List Ev → Nat
  | [] => 0
  | Ev.callApi :: t => callCount t + 1
  | Ev.sleepSec _ :: t => callCount t

/-- The list of sleep durations in a trace, in order. -/
def sleepsOf : List Ev → List Nat
  | [] => []
  | Ev.callApi :: t => sleepsOf t
  | Ev.sleepSec n :: t => n :: sleepsOf t

deriving instance DecidableEq for Except

/-- Result of one `BaseDownload.retry_call` invocation: the returned value or
the raised error, the value of the instance field `self.retry_count` after the
invocation, and the trace of provider calls and sleeps it performed. -/
structure RetryOutcome (α : Type) where
  result : Except String α
  retryCountAfter : Nat
  trace : List Ev
deriving DecidableEq, Repr

/-- The `while self.retry_count < RETRY` loop of `BaseDownload.retry_call`.

Loop body, from the source: call `func(**kwargs)`; on success set
`self.retry_count = 0` and return the result; on any exception sleep
`int(math.pow(2, self.retry_count)) * 30` seconds and increment
`self.retry_count`.  When the guard fails, raise
`RuntimeError("尝试调用Tushare API多次失败......")`.

The guard is encoded by the `fuel` argument, which the caller sets to
`RETRY - rc` (the number of iterations the guard still allows): each
iteration increments `rc` by one and decrements `fuel` by one, so `fuel = 0`
exactly when `rc` has reached `RETRY` (or exceeded it from the start).
`func` receives the call parameters (`**kwargs`) and the index of the
invocation within this run; `calls` counts invocations already made. -/
def retryCallLoop (func : β → Nat → Except String α) (params : β) :
    Nat → Nat → Nat → RetryOutcome α
  | 0, rc, _calls => ⟨.error RUNTIME_ERROR_MSG, rc, []⟩
  | fuel + 1, rc, calls =>
    match func params calls with
    | .ok df => ⟨.ok df, 0, [Ev.callApi]⟩
    | .error _ =>
      let rest := retryCallLoop func params fuel (rc + 1) (calls + 1)
      ⟨rest.result, rest.retryCountAfter,
        Ev.callApi :: Ev.sleepSec (2 ^ rc * 30) :: rest.trace⟩

/-- `BaseDownload.retry_call(func, **kwargs)` entered with the instance field
`self.retry_count` equal to `rc`. -/
def retryCall (func : β → Nat → Except String α) (params : β) (rc : Nat) :
    RetryOutcome α :=
  retryCallLoop func params (RETRY - rc) rc 0

/-- The trace produced by a run all of whose provider invocations fail,
starting at retry count `rc` with `fuel` loop iterations remaining:
each iteration calls the provider and then sleeps `2 ^ rc * 30` seconds. -/
def failTrace (rc : Nat) : Nat → List Ev
  | 0 => []
  | fuel + 1 => Ev.callApi :: Ev.sleepSec (2 ^ rc * 30) :: failTrace (rc + 1) fuel

/-- A SQL column type as passed in the `dtype` argument of
`DataFrame.to_sql`; the code only uses `sqlalchemy.types.VARCHAR(length=n)`. -/
inductive SqlType where
  | varchar : Nat → SqlType
deriving DecidableEq, Repr

/-- The `dtype_dic` dictionary built inside `BaseDownload.to_db`:
`ts_code ↦ VARCHAR(9)`, `trade_date ↦ VARCHAR(8)`, `ann_date ↦ VARCHAR(8)`;
every other column has no explicit entry (its type is left to inference). -/
def dtype_dic : String → Option SqlType := fun c =>
  if c = "ts_code" then some (SqlType.varchar 9)
  else if c = "trade_date" then some (SqlType.varchar 8)
  else if c = "ann_date" then some (SqlType.varchar 8)
  else none

/-- The `if_exists` argument of `DataFrame.to_sql` as used by `to_db`
(default `'append'`; `TradeCalendar.download` passes `'replace'`). -/
inductive IfExists where
  | append : IfExists
  | replace : IfExists
deriving DecidableEq, Repr

/-- Modelled from the spec: the store's `write_rows` semantics.  `DataFrame.to_sql`
is external to the repository; per the spec, on `append` rows are added to the
existing table without truncation, and on `replace` the entire table content is
discarded and replaced by the given row-set. -/
def write_rows {Row : Type} (existing newRows : List Row) (mode : IfExists) :
    List Row :=
  match mode with
  | .append => existing ++ newRows
  | .replace => newRows

/-- Result of one `BaseDownload.to_db` invocation over an abstract store:
the table content after the write (or the store's error if the write raised),
how many times the write was attempted, the `dtype` mapping handed to the
write, and whether `db_utils.create_db_index` was reached. -/
structure ToDbOutcome (Row : Type) where
  result : Except String (List Row)
  writeAttempts : Nat
  dtypeUsed : String → Option SqlType
  indexEnsured : Bool

/-- `BaseDownload.to_db(df, if_exists)`: one call to `df.to_sql(...)` with the
explicit `dtype=dtype_dic`, followed by `db_utils.create_db_index(...)`.
The store is abstracted by the current table content `existing` and by
`writeError`, the error the write raises (`none` when the write succeeds).
There is no exception handling and no retry in the source: a raising write
propagates its error and the index step is never reached. -/
def to_db {Row : Type} (df : List Row) (ifExists : IfExists)
    (existing : List Row) (writeError : Option String) : ToDbOutcome Row :=
  match writeError with
  | some e => ⟨.error e, 1, dtype_dic, false⟩
  | none => ⟨.ok (write_rows existing df ifExists), 1, dtype_dic, true⟩

/-- The store queries `BaseDownload.get_start_date` performs, abstracted:
`db_utils.is_table_exist(engine, name)` and the single-row
`select max(column) from table` (whose value is `NULL`, i.e. `none`, when the
table has no rows). -/
structure DbState where
  table_exists : String → Bool
  max_value : String → String → Option String

/-- Modelled from the spec: `utils.tomorrow` (module `utils/utils.py` is not in
the repository snapshot).  Per the spec the watermark is
"`max(date_column) + 1 day`", so this advances a `YYYYMMDD` date string by one
calendar day. -/
def leap_year (y : Nat) : Bool :=
  (y % 4 = 0 && y % 100 ≠ 0) || y % 400 = 0

/-- Days in month `m` of year `y` (Gregorian). -/
def days_in_month (y m : Nat) : Nat :=
  if m = 2 then (if leap_year y then 29 else 28)
  else if m = 4 || m = 6 || m = 9 || m = 11 then 30
  else 31

/-- Numeric value of a decimal digit character. -/
def digitVal (c : Char) : Nat := c.toNat - 48

/-- The number denoted by a list of decimal digit characters. -/
def natOfDigits (cs : List Char) : Nat :=
  cs.foldl (fun n c => n * 10 + digitVal c) 0

/-- The decimal digit character for `n < 10`. -/
def digitChar (n : Nat) : Char := Char.ofNat (48 + n)

/-- `n` rendered as exactly two decimal digits (zero-padded). -/
def pad2 (n : Nat) : String :=
  String.mk [digitChar (n / 10 % 10), digitChar (n % 10)]

/-- `n` rendered as exactly four decimal digits (zero-padded). -/
def pad4 (n : Nat) : String :=
  String.mk [digitChar (n / 1000 % 10), digitChar (n / 100 % 10),
    digitChar (n / 10 % 10), digitChar (n % 10)]

/-- Modelled from the spec: `utils.tomorrow` on a `YYYYMMDD` date string. -/
def tomorrow (date : String) : String :=
  let y := natOfDigits (date.data.take 4)
  let m := natOfDigits ((date.data.drop 4).take 2)
  let d := natOfDigits (date.data.drop 6)
  if d < days_in_month y m then pad4 y ++ pad2 m ++ pad2 (d + 1)
  else if m < 12 then pad4 y ++ pad2 (m + 1) ++ "01"
  else pad4 (y + 1) ++ "0101"

/-- `BaseDownload.get_start_date` for a downloader whose `get_table_name()` is
`table_name` and whose `get_date_column_name()` is `date_column_name`:
if the table does not exist, return `EALIEST_DATE`; otherwise query
`max(date_column)`; if it is `NULL`, return `EALIEST_DATE`; otherwise return
`utils.tomorrow` of it. -/
def get_start_date (table_name date_column_name : String) (db : DbState) :
    String :=
  if db.table_exists table_name = false then EALIEST_DATE
  else
    match db.max_value table_name date_column_name with
    | none => EALIEST_DATE
    | some latest_date => tomorrow latest_date

/-- `TradeCalendar.get_table_name()`. -/
def TradeCalendar.table_name : String := "trade_cal"

/-- `TradeCalendar.get_date_column_name()`. -/
def TradeCalendar.date_column_name : String := "cal_date"

/-- `TradeCalendar.download()`: fetch the full calendar (`pro.trade_cal()`,
here the parameter `df`) and persist it with `to_db(df, if_exists='replace')`. -/
def TradeCalendar.download {Row : Type} (df : List Row)
    (existing : List Row) (writeError : Option String) : ToDbOutcome Row :=
  to_db df IfExists.replace existing writeError

lemma retryCallLoop_ok_retryCountAfter {α β : Type}
    (func : β → Nat → Except String α) (params : β) :
    ∀ (fuel rc calls : Nat) (v : α),
      (retryCallLoop func params fuel rc calls).result = Except.ok v →
      (retryCallLoop func params fuel rc calls).retryCountAfter = 0 := by
  intro fuel
  induction fuel with
  | zero => intro rc calls v h; simp [retryCallLoop] at h
  | succ f ih =>
    intro rc calls v h
    cases hf : func params calls with
    | error e =>
      simp only [retryCallLoop, hf] at h ⊢
      exact ih (rc + 1) (calls + 1) v h
    | ok df => simp [retryCallLoop, hf]

lemma retryCallLoop_fail_then_ok {α β : Type} (func : β → Nat → Except String α)
    (params : β) (v : α) :
    ∀ (k fuel rc calls : Nat), k < fuel →
      (∀ j, j < k → ∃ e, func params (calls + j) = Except.error e) →
      func params (calls + k) = Except.ok v →
      (retryCallLoop func params fuel rc calls).result = Except.ok v ∧
      totalSleep (retryCallLoop func params fuel rc calls).trace
          = ∑ j ∈ Finset.range k, 2 ^ (rc + j) * 30 ∧
      callCount (retryCallLoop func params fuel rc calls).trace = k + 1 ∧
      (retryCallLoop func params fuel rc calls).retryCountAfter = 0 := by
  intro k
  induction k with
  | zero =>
    intro fuel rc calls hk _ hok
    obtain ⟨f, rfl⟩ : ∃ f, fuel = f + 1 := ⟨fuel - 1, by omega⟩
    rw [Nat.add_zero] at hok
    simp [retryCallLoop, hok, totalSleep, callCount]
  | succ k ih =>
    intro fuel rc calls hk hfail hok
    obtain ⟨f, rfl⟩ : ∃ f, fuel = f + 1 := ⟨fuel - 1, by omega⟩
    obtain ⟨e, he⟩ := hfail 0 (Nat.succ_pos k)
    rw [Nat.add_zero] at he
    have hfail' : ∀ j, j < k → ∃ e, func params (calls + 1 + j) = Except.error e := by
      intro j hj
      obtain ⟨e', he'⟩ := hfail (j + 1) (by omega)
      exact ⟨e', by rwa [show calls + (j + 1) = calls + 1 + j by omega] at he'⟩
    have hok' : func params (calls + 1 + k) = Except.ok v := by
      rwa [show calls + (k + 1) = calls + 1 + k by omega] at hok
    have ihh := ih f (rc + 1) (calls + 1) (by omega) hfail' hok'
    simp only [retryCallLoop, he]
    refine ⟨ihh.1, ?_, ?_, ihh.2.2.2⟩
    · simp only [totalSleep]
      rw [ihh.2.1, Finset.sum_range_succ']
      have hcong : ∑ j ∈ Finset.range k, 2 ^ (rc + (j + 1)) * 30
          = ∑ j ∈ Finset.range k, 2 ^ (rc + 1 + j) * 30 :=
        Finset.sum_congr rfl fun j _ => by
          rw [show rc + (j + 1) = rc + 1 + j by omega]
      rw [hcong, Nat.add_zero]
      exact Nat.add_comm _ _
    · simp only [callCount]
      rw [ihh.2.2.1]

lemma retryCallLoop_all_fail {α β : Type} (func : β → Nat → Except String α)
    (params : β) :
    ∀ (fuel rc calls : Nat),
      (∀ j, ∃ e, func params (calls + j) = Except.error e) →
      retryCallLoop func params fuel rc calls =
        ⟨Except.error RUNTIME_ERROR_MSG, rc + fuel, failTrace rc fuel⟩ := by
  intro fuel
  induction fuel with
  | zero => intro rc calls _; simp [retryCallLoop, failTrace]
  | succ f ih =>
    intro rc calls hfail
    obtain ⟨e, he⟩ := hfail 0
    rw [Nat.add_zero] at he
    have hfail' : ∀ j, ∃ e, func params (calls + 1 + j) = Except.error e := by
      intro j
      obtain ⟨e', he'⟩ := hfail (j + 1)
      exact ⟨e', by rwa [show calls + (j + 1) = calls + 1 + j by omega] at he'⟩
    simp only [retryCallLoop, he]
    rw [ih (rc + 1) (calls + 1) hfail']
    simp only [failTrace, RetryOutcome.mk.injEq]
    refine ⟨trivial, by omega, trivial⟩

/-- C1: `retry_call` performs no throttling at all.  With a provider call that
succeeds immediately, the whole trace of the run is a single unthrottled
provider invocation — no sleep and no wait of any kind precedes it, although
the configured interval `CALL_INTERVAL` is positive.  Hence two successive
provider calls are not separated by the configured interval, contradicting
the claim (and the function's own docstring): `self.call_interval` is stored
by `__init__` but never used. -/
theorem retry_call_no_throttle :
    (retryCall (fun (_ : Unit) (_ : Nat) =>
        (Except.ok 0 : Except String Nat)) () 0).trace = [Ev.callApi] ∧
    totalSleep (retryCall (fun (_ : Unit) (_ : Nat) =>
        (Except.ok 0 : Except String Nat)) () 0).trace = 0 ∧
    callCount (retryCall (fun (_ : Unit) (_ : Nat) =>
        (Except.ok 0 : Except String Nat)) () 0).trace = 1 ∧
    (0 : ℚ) < CALL_INTERVAL := by
  refine ⟨by decide, by decide, by decide, ?_⟩
  norm_num [CALL_INTERVAL, MAX_PER_SECOND]

/-- C2 counterexample: a `retry_call` invocation does not begin with attempt
count zero independently of how the previous invocation ended.  After an
invocation that exhausted the budget, the instance field `retry_count` is 5,
and the next invocation on the same instance fails immediately even though its
provider call would succeed — whereas from count zero it returns the success. -/
theorem retry_count_not_reset_on_exhaustion_cex :
    (retryCall (fun (_ : Unit) (_ : Nat) =>
        (Except.error "boom" : Except String Nat)) () 0).retryCountAfter = 5 ∧
    (retryCall (fun (_ : Unit) (_ : Nat) => (Except.ok 7 : Except String Nat)) ()
        (retryCall (fun (_ : Unit) (_ : Nat) =>
          (Except.error "boom" : Except String Nat)) () 0).retryCountAfter).result
      = Except.error RUNTIME_ERROR_MSG ∧
    (retryCall (fun (_ : Unit) (_ : Nat) =>
        (Except.ok 7 : Except String Nat)) () 0).result = Except.ok 7 := by
  decide

/-- C2 (amended): the attempt count is instance-level state, reset to zero
only by a success.  `__init__` starts it at zero, and any invocation that
returns a success leaves it at zero, so the invocation after a fresh start or
after a success begins with attempt count zero; an exhausted invocation
instead leaves it at the maximum (see C9). -/
theorem retry_count_zero_after_success
    {α β : Type} (func : β → Nat → Except String α) (params : β) (rc : Nat)
    (v : α) (h : (retryCall func params rc).result = Except.ok v) :
    (retryCall func params rc).retryCountAfter = 0 ∧ init_retry_count = 0 :=
  ⟨retryCallLoop_ok_retryCountAfter func params (RETRY - rc) rc 0 v h, rfl⟩

/-- Witness for C2 (amended) at a concrete succeeding call. -/
theorem retry_count_zero_after_success_witness :
    (retryCall (fun (_ : Unit) (_ : Nat) =>
        (Except.ok 7 : Except String Nat)) () 0).retryCountAfter = 0 ∧
    init_retry_count = 0 :=
  retry_count_zero_after_success
    (fun (_ : Unit) (_ : Nat) => (Except.ok 7 : Except String Nat)) () 0 7
    (by decide)

/-- C3 counterexample: the error raised on exhaustion carries neither the last
failure's cause nor the call parameters.  Two always-failing runs with
different causes ("cause A" vs "cause B") and different parameters (1 vs 2)
produce literally the same error value, the constant-message `RuntimeError`. -/
theorem runtime_error_carries_no_cause_cex :
    (retryCall (fun (_ : Nat) (_ : Nat) =>
        (Except.error "cause A" : Except String Nat)) 1 0).result
      = (retryCall (fun (_ : Nat) (_ : Nat) =>
        (Except.error "cause B" : Except String Nat)) 2 0).result ∧
    (retryCall (fun (_ : Nat) (_ : Nat) =>
        (Except.error "cause A" : Except String Nat)) 1 0).result
      = Except.error RUNTIME_ERROR_MSG := by
  decide

/-- C3 (amended): for a provider call whose every attempt fails, `retry_call`
makes exactly `RETRY = 5` attempts, makes no further retries, and then raises
a fatal `RuntimeError` with the fixed message
"尝试调用Tushare API多次失败......" which propagates to the caller; the error
does not carry the last failure's cause or the call parameters. -/
theorem retry_call_exhaustion_five_attempts
    {α β : Type} (func : β → Nat → Except String α) (params : β)
    (hfail : ∀ j, ∃ e, func params j = Except.error e) :
    (retryCall func params 0).result = Except.error RUNTIME_ERROR_MSG ∧
    callCount (retryCall func params 0).trace = RETRY ∧
    (retryCall func params 0).retryCountAfter = RETRY := by
  have h := retryCallLoop_all_fail func params 5 0 0
    (by intro j; rw [Nat.zero_add]; exact hfail j)
  have e : retryCall func params 0
      = ⟨Except.error RUNTIME_ERROR_MSG, 0 + 5, failTrace 0 5⟩ := by
    unfold retryCall
    rw [show RETRY - 0 = 5 from rfl]
    exact h
  have ht : (retryCall func params 0).trace = failTrace 0 5 := by rw [e]
  refine ⟨by rw [e], ?_, by rw [e]; rfl⟩
  rw [ht]
  decide

/-- Witness for C3 (amended) at a concrete always-failing call. -/
theorem retry_call_exhaustion_five_attempts_witness :
    (retryCall (fun (_ : Unit) (_ : Nat) =>
        (Except.error "boom" : Except String Nat)) () 0).result
      = Except.error RUNTIME_ERROR_MSG ∧
    callCount (retryCall (fun (_ : Unit) (_ : Nat) =>
        (Except.error "boom" : Except String Nat)) () 0).trace = RETRY ∧
    (retryCall (fun (_ : Unit) (_ : Nat) =>
        (Except.error "boom" : Except String Nat)) () 0).retryCountAfter = RETRY :=
  retry_call_exhaustion_five_attempts
    (fun (_ : Unit) (_ : Nat) => (Except.error "boom" : Except String Nat)) ()
    (fun _ => ⟨"boom", rfl⟩)

/-- C4: for a provider call that fails exactly `k` times and then succeeds,
with `k < RETRY`, `retry_call` (entered with attempt count 0) returns the
successful call's result on the `(k+1)`-th attempt, and its cumulative sleep
time is `∑ i ∈ [0, k), 2 ^ i * 30` seconds. -/
theorem retry_call_backoff
    {α β : Type} (func : β → Nat → Except String α) (params : β) (k : Nat)
    (v : α) (hk : k < RETRY)
    (hfail : ∀ j, j < k → ∃ e, func params j = Except.error e)
    (hok : func params k = Except.ok v) :
    (retryCall func params 0).result = Except.ok v ∧
    totalSleep (retryCall func params 0).trace
        = ∑ i ∈ Finset.range k, 2 ^ i * 30 ∧
    callCount (retryCall func params 0).trace = k + 1 := by
  have h := retryCallLoop_fail_then_ok func params v k (RETRY - 0) 0 0
    (by simpa using hk)
    (by intro j hj; rw [Nat.zero_add]; exact hfail j hj)
    (by rw [Nat.zero_add]; exact hok)
  unfold retryCall
  refine ⟨h.1, ?_, h.2.2.1⟩
  rw [h.2.1]
  exact Finset.sum_congr rfl fun j _ => by rw [Nat.zero_add]

/-- Witness for C4 at the spec's end-to-end scenario: two failures then a
success sleeps `30 + 60 = 90` seconds and succeeds on the 3rd attempt. -/
theorem retry_call_backoff_witness :
    (2 : Nat) < RETRY ∧
    (retryCall (fun (_ : Unit) (j : Nat) =>
        if j < 2 then (Except.error "boom" : Except String Nat)
        else Except.ok 7) () 0).result = Except.ok 7 ∧
    totalSleep (retryCall (fun (_ : Unit) (j : Nat) =>
        if j < 2 then (Except.error "boom" : Except String Nat)
        else Except.ok 7) () 0).trace = 90 ∧
    callCount (retryCall (fun (_ : Unit) (j : Nat) =>
        if j < 2 then (Except.error "boom" : Except String Nat)
        else Except.ok 7) () 0).trace = 3 := by
  have h := retry_call_backoff
    (fun (_ : Unit) (j : Nat) =>
      if j < 2 then (Except.error "boom" : Except String Nat) else Except.ok 7)
    () 2 7 (by decide)
    (by intro j hj; exact ⟨"boom", by simp [hj]⟩)
    (by decide)
  refine ⟨by decide, h.1, ?_, h.2.2⟩
  rw [h.2.1]
  decide

/-- C9: exhaustion is sticky.  An always-failing invocation leaves the
instance field `retry_count` at `RETRY`, and any later `retry_call` on the
same instance (entered with that count) raises the fatal error immediately
without invoking the provider call even once. -/
theorem retry_exhaustion_sticky
    {α β α2 β2 : Type} (f1 : β → Nat → Except String α) (p1 : β)
    (hfail : ∀ j, ∃ e, f1 p1 j = Except.error e)
    (f2 : β2 → Nat → Except String α2) (p2 : β2) :
    (retryCall f1 p1 0).retryCountAfter = RETRY ∧
    (retryCall f2 p2 (retryCall f1 p1 0).retryCountAfter).result
        = Except.error RUNTIME_ERROR_MSG ∧
    callCount (retryCall f2 p2 (retryCall f1 p1 0).retryCountAfter).trace
        = 0 := by
  have h := retryCallLoop_all_fail f1 p1 5 0 0
    (by intro j; rw [Nat.zero_add]; exact hfail j)
  have e : retryCall f1 p1 0
      = ⟨Except.error RUNTIME_ERROR_MSG, 0 + 5, failTrace 0 5⟩ := by
    unfold retryCall
    rw [show RETRY - 0 = 5 from rfl]
    exact h
  rw [e]
  exact ⟨rfl, rfl, rfl⟩

/-- Witness for C9 at concrete calls: after exhaustion the later invocation
(whose provider call would succeed) raises at once, with zero invocations. -/
theorem retry_exhaustion_sticky_witness :
    (retryCall (fun (_ : Unit) (_ : Nat) =>
        (Except.error "boom" : Except String Nat)) () 0).retryCountAfter
      = RETRY ∧
    (retryCall (fun (_ : Unit) (_ : Nat) => (Except.ok 7 : Except String Nat))
        () (retryCall (fun (_ : Unit) (_ : Nat) =>
          (Except.error "boom" : Except String Nat)) () 0).retryCountAfter).result
      = Except.error RUNTIME_ERROR_MSG ∧
    callCount (retryCall (fun (_ : Unit) (_ : Nat) =>
        (Except.ok 7 : Except String Nat))
        () (retryCall (fun (_ : Unit) (_ : Nat) =>
          (Except.error "boom" : Except String Nat)) () 0).retryCountAfter).trace
      = 0 :=
  retry_exhaustion_sticky
    (fun (_ : Unit) (_ : Nat) => (Except.error "boom" : Except String Nat)) ()
    (fun _ => ⟨"boom", rfl⟩)
    (fun (_ : Unit) (_ : Nat) => (Except.ok 7 : Except String Nat)) ()

/-- C10: when every attempt fails, `retry_call` sleeps the full backoff delay
`2 ^ i * 30` for every `i ∈ [0, RETRY)`, including `i = RETRY - 1 = 4` after
the final failed attempt, before raising the fatal error: the trace ends with
the sleep of `2 ^ 4 * 30 = 480` seconds, which no further attempt follows. -/
theorem retry_call_sleeps_after_final_attempt
    {α β : Type} (func : β → Nat → Except String α) (params : β)
    (hfail : ∀ j, ∃ e, func params j = Except.error e) :
    (retryCall func params 0).trace
      = [Ev.callApi, Ev.sleepSec (2 ^ 0 * 30), Ev.callApi,
         Ev.sleepSec (2 ^ 1 * 30), Ev.callApi, Ev.sleepSec (2 ^ 2 * 30),
         Ev.callApi, Ev.sleepSec (2 ^ 3 * 30), Ev.callApi,
         Ev.sleepSec (2 ^ 4 * 30)] ∧
    (retryCall func params 0).result = Except.error RUNTIME_ERROR_MSG := by
  have h := retryCallLoop_all_fail func params 5 0 0
    (by intro j; rw [Nat.zero_add]; exact hfail j)
  have e : retryCall func params 0
      = ⟨Except.error RUNTIME_ERROR_MSG, 0 + 5, failTrace 0 5⟩ := by
    unfold retryCall
    rw [show RETRY - 0 = 5 from rfl]
    exact h
  have ht : (retryCall func params 0).trace = failTrace 0 5 := by rw [e]
  refine ⟨?_, by rw [e]⟩
  rw [ht]
  decide

/-- Witness for C10 at a concrete always-failing call. -/
theorem retry_call_sleeps_after_final_attempt_witness :
    (retryCall (fun (_ : Unit) (_ : Nat) =>
        (Except.error "boom" : Except String Nat)) () 0).trace
      = [Ev.callApi, Ev.sleepSec (2 ^ 0 * 30), Ev.callApi,
         Ev.sleepSec (2 ^ 1 * 30), Ev.callApi, Ev.sleepSec (2 ^ 2 * 30),
         Ev.callApi, Ev.sleepSec (2 ^ 3 * 30), Ev.callApi,
         Ev.sleepSec (2 ^ 4 * 30)] ∧
    (retryCall (fun (_ : Unit) (_ : Nat) =>
        (Except.error "boom" : Except String Nat)) () 0).result
      = Except.error RUNTIME_ERROR_MSG :=
  retry_call_sleeps_after_final_attempt
    (fun (_ : Unit) (_ : Nat) => (Except.error "boom" : Except String Nat)) ()
    (fun _ => ⟨"boom", rfl⟩)

/-- C5: `get_start_date` returns the fallback `EALIEST_DATE = "20080101"` when
the target table does not exist; returns the fallback when the table exists
but `max(date_column)` is `NULL`; and otherwise returns the stored maximum of
the date column advanced by one day. -/
theorem get_start_date_spec (t c : String) (db : DbState) :
    (db.table_exists t = false → get_start_date t c db = EALIEST_DATE) ∧
    (db.table_exists t = true → db.max_value t c = none →
        get_start_date t c db = EALIEST_DATE) ∧
    (∀ d, db.table_exists t = true → db.max_value t c = some d →
        get_start_date t c db = tomorrow d) := by
  refine ⟨?_, ?_, ?_⟩
  · intro h
    simp [get_start_date, h]
  · intro h1 h2
    simp [get_start_date, h1, h2]
  · intro d h1 h2
    simp [get_start_date, h1, h2]

/-- Witness for C5 at concrete stores: an absent table, an empty table, and a
table whose maximum `cal_date` is "20211231" (whose successor day is
"20220101"). -/
theorem get_start_date_spec_witness :
    get_start_date "trade_cal" "cal_date"
        (DbState.mk (fun _ => false) (fun _ _ => none)) = EALIEST_DATE ∧
    get_start_date "trade_cal" "cal_date"
        (DbState.mk (fun _ => true) (fun _ _ => none)) = EALIEST_DATE ∧
    get_start_date "trade_cal" "cal_date"
        (DbState.mk (fun _ => true) (fun _ _ => some "20211231"))
      = "20220101" := by
  refine ⟨(get_start_date_spec "trade_cal" "cal_date" _).1 rfl,
    (get_start_date_spec "trade_cal" "cal_date" _).2.1 rfl rfl, ?_⟩
  rw [(get_start_date_spec "trade_cal" "cal_date" _).2.2 "20211231" rfl rfl]
  decide

/-- C6: a store write failure inside `to_db` surfaces as the store's error
(the fatal `PersistenceFailed` of the spec), the index-creation step after the
write is never reached, and `to_db` attempts the write exactly once — it never
retries it, whether the write fails or succeeds. -/
theorem to_db_write_failure_fatal {Row : Type} (df existing : List Row)
    (ifExists : IfExists) (e : String) :
    (to_db df ifExists existing (some e)).result = Except.error e ∧
    (to_db df ifExists existing (some e)).indexEnsured = false ∧
    (∀ we : Option String, (to_db df ifExists existing we).writeAttempts = 1) := by
  refine ⟨rfl, rfl, ?_⟩
  intro we
  cases we <;> rfl

/-- C7: persisting in `append` mode keeps every row already in the table (the
post-state is the old rows followed by the new ones), persisting in `replace`
mode leaves exactly as many rows as the input row-set, and
`TradeCalendar.download` persists its full refresh with `replace`. -/
theorem to_db_append_replace_semantics {Row : Type} (df existing : List Row) :
    (to_db df IfExists.append existing none).result
        = Except.ok (existing ++ df) ∧
    (∀ r, r ∈ existing → ∀ res,
        (to_db df IfExists.append existing none).result = Except.ok res →
        r ∈ res) ∧
    (∀ res, (to_db df IfExists.replace existing none).result = Except.ok res →
        res.length = df.length) ∧
    (TradeCalendar.download df existing none).result = Except.ok df := by
  refine ⟨rfl, ?_, ?_, rfl⟩
  · intro r hr res hres
    have : existing ++ df = res := by
      have h0 : (Except.ok (existing ++ df) : Except String (List Row))
          = Except.ok res := hres
      exact Except.ok.inj h0
    rw [← this]
    exact List.mem_append_left df hr
  · intro res hres
    have : df = res := Except.ok.inj hres
    rw [← this]

/-- Witness for C7 at concrete row-sets. -/
theorem to_db_append_replace_semantics_witness :
    (to_db [3] IfExists.append [1, 2] none).result
        = Except.ok ([1, 2] ++ [3]) ∧
    (1 : Nat) ∈ [1, 2] ∧
    (∀ res, (to_db [3] IfExists.append [1, 2] none).result = Except.ok res →
        (1 : Nat) ∈ res) ∧
    (∀ res, (to_db [3] IfExists.replace [1, 2] none).result = Except.ok res →
        res.length = 1) ∧
    (TradeCalendar.download [3] [1, 2] none).result = Except.ok [3] := by
  have h := to_db_append_replace_semantics [3] [1, 2]
  exact ⟨h.1, by decide, fun res => h.2.1 1 (by decide) res, h.2.2.1,
    h.2.2.2⟩

/-- C8: every `to_db` write hands the store the explicit `dtype` mapping
`dtype_dic`, which types each recognized date-like field with a fixed-width
textual type — `trade_date ↦ VARCHAR(8)`, `ann_date ↦ VARCHAR(8)`,
`ts_code ↦ VARCHAR(9)` — rather than leaving it to inference. -/
theorem to_db_explicit_date_dtypes {Row : Type} (df existing : List Row)
    (ifExists : IfExists) (we : Option String) :
    (to_db df ifExists existing we).dtypeUsed "trade_date"
        = some (SqlType.varchar 8) ∧
    (to_db df ifExists existing we).dtypeUsed "ann_date"
        = some (SqlType.varchar 8) ∧
    (to_db df ifExists existing we).dtypeUsed "ts_code"
        = some (SqlType.varchar 9) ∧
    (∀ c, (to_db df ifExists existing we).dtypeUsed c = dtype_dic c) := by
  cases we <;> exact ⟨rfl, rfl, rfl, fun c => rfl⟩
